import Mathlib

/-!
Verification of the biohacker-telegram-webhook message pipeline.

Shallow embedding of the Python source:
  * `api/processors/gemini_vision.py` — `extract_structured_meal_data`
    (the deterministic "RegexExtractor") is embedded as a pure Lean
    function over lists of characters.
  * `api/processors/groq_nlp.py` — `classify_intent` and `_call_groq`
    are embedded with the network outcome (HTTP status / transport
    error / returned content) supplied as an explicit oracle argument,
    since the actual Groq call is an external collaborator.
  * `api/webhook.py` — `process_text`, `process_voice` and the branch
    selection of `process_message` are embedded; each collaborator call
    the handler makes is additionally recorded in an explicit call log
    so that "no extraction call is attempted" becomes a provable
    statement.

Python semantics mirrored here: `str.strip` removes ASCII whitespace at
both ends, `str.split('\n')` keeps empty segments and returns at least
one segment, slicing and `len` count code points, `\d` is modelled as
the ASCII digits, `str.lower` as ASCII lowercasing, and a `re.search`
for `(\d+)g` / `(\d+)\s*kcal` returns the leftmost maximal digit run
followed by the required suffix.
-/

namespace Biohack

/-- Python `str.isspace` characters relevant to `str.strip`: the six
ASCII whitespace characters. -/
def pyIsSpace (c : Char) : Bool :=
  c = ' ' || c = '\t' || c = '\n' || c = '\r' || c = '\x0b' || c = '\x0c'

/-- Python `str.strip()` on a list of characters: drop whitespace from
both ends. -/
def stripChars (cs : List Char) : List Char :=
  ((cs.dropWhile pyIsSpace).reverse.dropWhile pyIsSpace).reverse

/-- Python `s.strip()` on a `String`. -/
def pyStripStr (s : String) : String :=
  String.mk (stripChars s.toList)

/-- Python `s.lower()` (ASCII range, matching the labels and units the
source compares against). -/
def pyLowerStr (s : String) : String :=
  String.mk (s.toList.map Char.toLower)

/-- Python `s.split(sep)` for a one-character separator: keeps empty
segments and always returns at least one segment. -/
def splitOnChar (sep : Char) : List Char → List (List Char)
  | [] => [[]]
  | c :: rest =>
    let r := splitOnChar sep rest
    if c = sep then [] :: r
    else
      match r with
      | h :: t => (c :: h) :: t
      | [] => [[c]]

/-- Python `':'.join(parts)`. -/
def joinColon : List (List Char) → List Char
  | [] => []
  | [x] => x
  | x :: rest => x ++ ':' :: joinColon rest

/-- Python `needle in hay` substring test on character lists. -/
def listContains (needle : List Char) : List Char → Bool
  | [] => needle.isEmpty
  | c :: rest => needle.isPrefixOf (c :: rest) || listContains needle rest

/-- Python `s.startswith(pre)`. -/
def pyStartsWith (pre : List Char) (s : String) : Bool :=
  pre.isPrefixOf s.toList

/-- Leftmost match of the Python regex `(\d+)g` (gemini_vision.py line
162): the first maximal ASCII digit run immediately followed by the
letter `g`; returns the run's integer value.  The accumulator holds the
value of the digit run currently being scanned. -/
def searchGramsGo (acc : Option Nat) : List Char → Option Nat
  | [] => none
  | c :: rest =>
    if c.isDigit then
      searchGramsGo (some ((acc.getD 0) * 10 + (c.toNat - 48))) rest
    else if c = 'g' then
      match acc with
      | some n => some n
      | none => searchGramsGo none rest
    else
      searchGramsGo none rest

/-- Does the remainder match `\s*kcal` (optional ASCII whitespace, then
the literal `kcal`)? -/
def wsThenKcal (cs : List Char) : Bool :=
  match cs.dropWhile pyIsSpace with
  | 'k' :: 'c' :: 'a' :: 'l' :: _ => true
  | _ => false

/-- Leftmost match of the Python regex `(\d+)\s*kcal` (gemini_vision.py
line 174): the first maximal digit run followed, after optional
whitespace, by the literal `kcal`. -/
def searchKcalGo (acc : Option Nat) : List Char → Option Nat
  | [] => none
  | c :: rest =>
    if c.isDigit then
      searchKcalGo (some ((acc.getD 0) * 10 + (c.toNat - 48))) rest
    else
      match acc with
      | some n => if wsThenKcal (c :: rest) then some n else searchKcalGo none rest
      | none => searchKcalGo none rest

/-- One extracted food item (an entry of the `alimentos` list built by
`extract_structured_meal_data`). -/
structure Alimento where
  nome : String
  quantidade_g : Nat
  descricao : String
deriving Repr, DecidableEq

/-- The dict returned by `extract_structured_meal_data`. -/
structure MealStruct where
  alimentos : List Alimento
  total_calorias_estimada : Nat
  analise_completa : String
deriving Repr, DecidableEq

/-- Does a (stripped) line start with a bullet marker `-` or `•`
(gemini_vision.py line 152)? -/
def isBulletLine : List Char → Bool
  | c :: _ => c = '-' || c = '•'
  | [] => false

/-- The bullet-line item parse of gemini_vision.py lines 155-169: drop
the marker, strip, split on `:`; with at least two parts, the first
(stripped) is the name, the re-joined rest (stripped) is the note, and
the grams figure is the first `(\d+)g` match in the note, defaulting
to 0. -/
def parseItemLine (line : List Char) : Option Alimento :=
  match splitOnChar ':' (stripChars (line.drop 1)) with
  | p0 :: p1 :: rest =>
    let resto := stripChars (joinColon (p1 :: rest))
    some { nome := String.mk (stripChars p0)
           quantidade_g := (searchGramsGo none resto).getD 0
           descricao := String.mk resto }
  | _ => none

/-- The kcal scan of gemini_vision.py lines 172-176 applied to one
stripped line: if the lowercased line contains `kcal`, the first
`(\d+)\s*kcal` match (if any) is the new running total. -/
def lineKcal (line : List Char) : Option Nat :=
  let low := line.map Char.toLower
  if listContains ['k', 'c', 'a', 'l'] low then searchKcalGo none low else none

/-- The body of the per-line loop of `extract_structured_meal_data`
(gemini_vision.py lines 150-176): the accumulator is the `alimentos`
list so far and the running `total_calorias`. -/
def processLine (acc : List Alimento × Nat) (raw : List Char) : List Alimento × Nat :=
  let line := stripChars raw
  let acc1 :=
    if isBulletLine line then
      match parseItemLine line with
      | some a => (acc.1 ++ [a], acc.2)
      | none => acc
    else acc
  match lineKcal line with
  | some n => (acc1.1, n)
  | none => acc1

/-- The loop of `extract_structured_meal_data` over all lines. -/
def extractLines (lines : List (List Char)) : List Alimento × Nat :=
  lines.foldl processLine ([], 0)

/-- `extract_structured_meal_data` (gemini_vision.py lines 133-182):
split the analysis text on newlines, run the per-line loop, and return
the structured dict. -/
def extract_structured_meal_data (analysis_text : String) : MealStruct :=
  let r := extractLines (splitOnChar '\n' analysis_text.toList)
  { alimentos := r.1
    total_calorias_estimada := r.2
    analise_completa := analysis_text }

/-- The lines of an input text, as `extract_structured_meal_data` sees
them. -/
def linesOf (s : String) : List (List Char) :=
  splitOnChar '\n' s.toList

/-! ## Collaborator model (groq_nlp.py)

The Groq HTTP call is an external collaborator; its outcome is passed
as an explicit oracle argument.  `_call_groq` itself (groq_nlp.py lines
155-202) is embedded: the missing-key check, the status-code check, the
exception handler, and — in JSON mode — the `json.loads` fallback dict.
Whether the 200-response content parses as JSON is part of the oracle
(`okJson` carries the parsed value, `okUnparseable` the raw content),
abstracting `json.loads`. -/

/-- A JSON value, as produced by `json.loads` on collaborator output. -/
inductive JVal where
  | jnull
  | jbool (b : Bool)
  | jnum (n : Int)
  | jstr (s : String)
  | jarr (xs : List JVal)
  | jobj (fields : List (String × JVal))
deriving Repr

/-- Python truthiness of a JSON value (`if extracted_data:`). -/
def pyTruthy : JVal → Bool
  | .jnull => false
  | .jbool b => b
  | .jnum n => n != 0
  | .jstr s => s != ""
  | .jarr xs => !xs.isEmpty
  | .jobj fs => !fs.isEmpty

/-- Spaces for `json.dumps(..., indent=2)`. -/
def dumpSpaces (n : Nat) : String :=
  String.mk (List.replicate n ' ')

/-- JSON string escaping as `json.dumps(..., ensure_ascii=False)` does
it: quote, backslash and ASCII control characters are escaped, all
other characters are kept verbatim. -/
def dumpEscChar (c : Char) : String :=
  if c = '"' then "\\\""
  else if c = '\\' then "\\\\"
  else if c = '\n' then "\\n"
  else if c = '\t' then "\\t"
  else if c = '\r' then "\\r"
  else if c = '\x08' then "\\b"
  else if c = '\x0c' then "\\f"
  else if c.toNat < 32 then
    let hex := fun (n : Nat) => if n < 10 then Char.ofNat (48 + n) else Char.ofNat (87 + n)
    "\\u00" ++ String.mk [hex (c.toNat / 16), hex (c.toNat % 16)]
  else String.mk [c]

/-- Escaped, quoted JSON string literal. -/
def dumpStr (s : String) : String :=
  "\"" ++ String.join (s.toList.map dumpEscChar) ++ "\""

mutual

/-- `json.dumps(v, indent=2, ensure_ascii=False)`, at a given indent
width. -/
def dumpVal (ind : Nat) : JVal → String
  | .jnull => "null"
  | .jbool b => if b then "true" else "false"
  | .jnum n => toString n
  | .jstr s => dumpStr s
  | .jarr xs =>
    if xs.isEmpty then "[]"
    else "[\n" ++ dumpArr (ind + 2) xs ++ "\n" ++ dumpSpaces ind ++ "]"
  | .jobj fs =>
    if fs.isEmpty then "\x7b\x7d"
    else "\x7b\n" ++ dumpObj (ind + 2) fs ++ "\n" ++ dumpSpaces ind ++ "\x7d"

/-- Array elements, one per line. -/
def dumpArr (ind : Nat) : List JVal → String
  | [] => ""
  | [x] => dumpSpaces ind ++ dumpVal ind x
  | x :: rest => dumpSpaces ind ++ dumpVal ind x ++ ",\n" ++ dumpArr ind rest

/-- Object entries, one per line. -/
def dumpObj (ind : Nat) : List (String × JVal) → String
  | [] => ""
  | [(k, v)] => dumpSpaces ind ++ dumpStr k ++ ": " ++ dumpVal ind v
  | (k, v) :: rest => dumpSpaces ind ++ dumpStr k ++ ": " ++ dumpVal ind v ++ ",\n" ++ dumpObj ind rest

end

/-- `json.dumps(v, indent=2, ensure_ascii=False)`. -/
def pyDumps (v : JVal) : String :=
  dumpVal 0 v

/-- Outcome of the Groq HTTP request in text mode (`json_mode=False`):
the request raised, returned a non-200 status, or returned 200 with the
given message content. -/
inductive GroqHttp where
  | transportError (msg : String)
  | httpError (status : Nat) (body : String)
  | ok (content : String)
deriving Repr, DecidableEq

/-- Outcome of the Groq HTTP request in JSON mode (`json_mode=True`):
as `GroqHttp`, with a 200 response carrying either a parsed JSON value
or content `json.loads` rejects. -/
inductive GroqJsonNet where
  | transportError (msg : String)
  | httpError (status : Nat) (body : String)
  | okUnparseable (content : String)
  | okJson (v : JVal)
deriving Repr

/-- Result of `_call_groq` with `json_mode=False`: the dict
`{"success": True, "text": content}` or `{"success": False, "error": e}`
(groq_nlp.py lines 155-202). -/
inductive GroqTextResult where
  | ok (text : String)
  | err (error : String)
deriving Repr, DecidableEq

/-- `_call_groq` with `json_mode=False` (used by `classify_intent`). -/
def callGroqText (hasKey : Bool) (net : GroqHttp) : GroqTextResult :=
  if !hasKey then .err "GROQ_API_KEY não configurada"
  else
    match net with
    | .ok content => .ok content
    | .httpError status body => .err ("API Error " ++ toString status ++ ": " ++ body)
    | .transportError msg => .err msg

/-- `_call_groq` with `json_mode=True` (used by the three extractors):
returns `json.loads(content)` on a parseable 200 response, and an
error dict in every other case. -/
def callGroqJson (hasKey : Bool) (net : GroqJsonNet) : JVal :=
  if !hasKey then
    .jobj [("success", .jbool false), ("error", .jstr "GROQ_API_KEY não configurada")]
  else
    match net with
    | .okJson v => v
    | .okUnparseable content =>
      .jobj [("success", .jbool false), ("error", .jstr "JSON inválido"), ("raw", .jstr content)]
    | .httpError status body =>
      .jobj [("success", .jbool false),
             ("error", .jstr ("API Error " ++ toString status ++ ": " ++ body))]
    | .transportError msg =>
      .jobj [("success", .jbool false), ("error", .jstr msg)]

/-- The closed intent set of groq_nlp.py line 151. -/
def validIntents : List String :=
  ["meal", "workout", "hydration", "supplement", "question", "greeting", "other"]

/-- `classify_intent` (groq_nlp.py lines 125-152): call Groq in text
mode, read the `text` field of the result defaulting to `"other"`,
strip and lowercase it, and coerce anything outside the closed intent
set to `"other"`.  The prompt built from the user text only feeds the
collaborator, whose reply is the oracle `net`. -/
def classify_intent (hasKey : Bool) (net : GroqHttp) : String :=
  let raw :=
    match callGroqText hasKey net with
    | .ok t => t
    | .err _ => "other"
  let intent := pyLowerStr (pyStripStr raw)
  if validIntents.contains intent then intent else "other"

/-! ## Webhook handlers (api/webhook.py)

Each collaborator call a handler makes is recorded in an explicit call
log, so absence of a call is provable.  The three per-intent extraction
oracles are passed separately; only the one the chosen branch uses can
appear in the log. -/

/-- A collaborator call made through groq_nlp.py: the classification
call or one of the three schema extractions. -/
inductive GroqCall where
  | classifyCall
  | mealCall
  | workoutCall
  | hydrationCall
deriving Repr, DecidableEq

/-- The `data` dict built by `process_text` (webhook.py lines 267-275);
the constant `'type': 'text'` entry is the `ty` field. -/
structure TextData where
  ty : String
  text : String
  intent : String
  extracted : Option JVal
deriving Repr

/-- The dict returned by `process_text`: the reply text and the
optional data payload (`data = None` on the handler's error paths). -/
structure PTResult where
  response : String
  data : Option TextData
deriving Repr

/-- `process_text` (webhook.py lines 235-278): classify the text, run
the matching schema extraction for `meal`/`workout`/`hydration`, and
assemble the reply.  `hasKey` is `GROQ_API_KEY`'s truthiness, `cNet`
the classification call's network outcome, and `mNet`/`wNet`/`hNet`
the per-schema extraction outcomes.  Nothing in the embedded body can
raise, so the source's `except` branch (which would return
`data = None` with an error reply) is unreachable here. -/
def process_text (text : String) (hasKey : Bool) (cNet : GroqHttp)
    (mNet wNet hNet : GroqJsonNet) : PTResult × List GroqCall :=
  let intent := classify_intent hasKey cNet
  let pick : Option JVal × String × List GroqCall :=
    if intent = "meal" then
      (some (callGroqJson hasKey mNet), "🍽️ Refeição", [.classifyCall, .mealCall])
    else if intent = "workout" then
      (some (callGroqJson hasKey wNet), "💪 Treino", [.classifyCall, .workoutCall])
    else if intent = "hydration" then
      (some (callGroqJson hasKey hNet), "💧 Hidratação", [.classifyCall, .hydrationCall])
    else
      (none, "📝 Mensagem", [.classifyCall])
  let extracted := pick.1
  let preview := String.mk (text.toList.take 100) ++ (if 100 < text.toList.length then "..." else "")
  let dataSeg :=
    match extracted with
    | some d =>
      if pyTruthy d then "📊 Dados: " ++ String.mk ((pyDumps d).toList.take 300) ++ "...\n\n"
      else ""
    | none => ""
  let response :=
    (pick.2.1 ++ " registrada!\n\n") ++
    ("📝 Texto: \"" ++ preview ++ "\"\n") ++
    ("🎯 Intenção: " ++ intent ++ "\n" ++ dataSeg ++ "✅ Salvo na fila de sincronização!")
  ({ response := response
     data := some { ty := "text", text := text, intent := intent, extracted := extracted } },
   pick.2.2)

/-- Outcome of `transcribe_from_telegram` as `process_voice` reads it:
`result['success']` with `result['text']`, or the failure dict's
`error` field (default `'Desconhecido'`). -/
inductive TranscribeOutcome where
  | ok (text : String)
  | err (error : String)
deriving Repr, DecidableEq

/-- The `data` dict built by `process_voice` (webhook.py lines
216-225). -/
structure VoiceData where
  ty : String
  transcription : String
  intent : String
  extracted : Option JVal
  duration : Nat
deriving Repr

/-- The dict returned by `process_voice`. -/
structure PVResult where
  response : String
  data : Option VoiceData
deriving Repr

/-- `process_voice` (webhook.py lines 178-233): resolve the file URL,
transcribe, classify the transcription, extract per intent, and build
the reply.  `fileUrl` is the oracle for `get_telegram_file_url`, `tr`
for the transcription collaborator.  Note the transcription is echoed
into the reply unmodified. -/
def process_voice (duration : Nat) (fileUrl : Option String) (tr : TranscribeOutcome)
    (hasKey : Bool) (cNet : GroqHttp) (mNet wNet hNet : GroqJsonNet) :
    PVResult × List GroqCall :=
  match fileUrl with
  | none => ({ response := "❌ Erro ao acessar áudio", data := none }, [])
  | some _ =>
    match tr with
    | .err e => ({ response := "⚠️ Erro na transcrição: " ++ e, data := none }, [])
    | .ok transcription =>
      let intent := classify_intent hasKey cNet
      let pick : Option JVal × List GroqCall :=
        if intent = "meal" then (some (callGroqJson hasKey mNet), [.classifyCall, .mealCall])
        else if intent = "workout" then (some (callGroqJson hasKey wNet), [.classifyCall, .workoutCall])
        else if intent = "hydration" then (some (callGroqJson hasKey hNet), [.classifyCall, .hydrationCall])
        else (none, [.classifyCall])
      let extracted := pick.1
      let dataSeg :=
        match extracted with
        | some d => if pyTruthy d then "📊 Dados extraídos: " ++ pyDumps d ++ "\n\n" else ""
        | none => ""
      let response :=
        ("🎙️ **Áudio Transcrito!**\n\n") ++
        ("📝 Texto: \"" ++ transcription ++ "\"\n\n") ++
        ("🎯 Intenção: " ++ intent ++ "\n" ++ dataSeg ++ "✅ Salvo na fila de sincronização!")
      ({ response := response
         data := some { ty := "voice", transcription := transcription, intent := intent
                        extracted := extracted, duration := duration } },
       pick.2)

/-- The modality content of an inbound Telegram message as
`process_message` reads it: `message.get('text', '')` plus the
truthiness of the `voice` and `photo` entries. -/
structure MsgShape where
  text : String
  voicePresent : Bool
  photoPresent : Bool
deriving Repr, DecidableEq

/-- Which handler `process_message` dispatches to. -/
inductive Route where
  | commandPath
  | photoPath
  | voicePath
  | textPath
  | fallbackPath
deriving Repr, DecidableEq

/-- The branch selection of `process_message` (webhook.py lines
102-131): commands first, then photo gated on `IMPORTS_OK` and
`GEMINI_API_KEY`, then voice gated on `IMPORTS_OK` and `GROQ_API_KEY`,
then non-empty text gated the same way, else the fallback reply. -/
def process_message_route (m : MsgShape) (importsOk hasGroqKey hasGeminiKey : Bool) : Route :=
  if (m.text != "") && pyStartsWith ['/'] m.text then .commandPath
  else if m.photoPresent && importsOk && hasGeminiKey then .photoPath
  else if m.voicePresent && importsOk && hasGroqKey then .voicePath
  else if (m.text != "") && importsOk && hasGroqKey then .textPath
  else .fallbackPath

/-! ## Spec-side definitions

These follow the spec's words (or a claim's words), for comparison with
the code-derived definitions above.  They are not part of the source
embedding. -/

/-- First line, in order, whose stripped lowercased form yields a
`(\d+)\s*kcal` match; per the words of claim C3. -/
def firstKcal : List (List Char) → Option Nat
  | [] => none
  | l :: rest =>
    match lineKcal (stripChars l) with
    | some n => some n
    | none => firstKcal rest

/-- Last line whose stripped lowercased form yields a `(\d+)\s*kcal`
match. -/
def lastKcal : List (List Char) → Option Nat
  | [] => none
  | l :: rest =>
    match lastKcal rest with
    | some n => some n
    | none => lineKcal (stripChars l)

/-- Claim C3's stated semantics: the first kcal occurrence, scanning
lines in order; 0 when absent. -/
def spec_totalCalories_firstLine (s : String) : Nat :=
  (firstKcal (linesOf s)).getD 0

/-- Amended semantics: the first kcal occurrence within the last line
containing one; 0 when absent. -/
def spec_totalCalories_lastLine (s : String) : Nat :=
  (lastKcal (linesOf s)).getD 0

/-- Claim C2's stated priority: command, then photo, then voice, then
non-empty text, then fallback — with no configuration gating. -/
def spec_route_priority (m : MsgShape) : Route :=
  if (m.text != "") && pyStartsWith ['/'] m.text then .commandPath
  else if m.photoPresent then .photoPath
  else if m.voicePresent then .voicePath
  else if m.text != "" then .textPath
  else .fallbackPath

/-! ## Helper lemmas about the extractor loop -/

/-- One loop iteration updates the running calorie total to this line's
kcal match when there is one, and keeps it otherwise. -/
theorem processLine_snd (acc : List Alimento × Nat) (l : List Char) :
    (processLine acc l).2 = (lineKcal (stripChars l)).getD acc.2 := by
  unfold processLine
  cases h : lineKcal (stripChars l) with
  | none =>
    simp only [h, Option.getD_none]
    split
    · split <;> rfl
    · rfl
  | some n => simp [h]

/-- One loop iteration leaves the item list unchanged on a non-bullet
line. -/
theorem processLine_fst_of_not_bullet (acc : List Alimento × Nat) (l : List Char)
    (h : isBulletLine (stripChars l) = false) :
    (processLine acc l).1 = acc.1 := by
  unfold processLine
  simp only [h, Bool.false_eq_true, if_false]
  cases lineKcal (stripChars l) <;> rfl

/-- The running calorie total after the whole loop is the last per-line
kcal match, falling back to the starting value. -/
theorem foldl_snd (L : List (List Char)) :
    ∀ acc : List Alimento × Nat,
      (L.foldl processLine acc).2 = (lastKcal L).getD acc.2 := by
  induction L with
  | nil => intro acc; rfl
  | cons l rest ih =>
    intro acc
    show (rest.foldl processLine (processLine acc l)).2 = (lastKcal (l :: rest)).getD acc.2
    rw [ih (processLine acc l), processLine_snd]
    cases h1 : lastKcal rest with
    | none =>
      cases h2 : lineKcal (stripChars l) with
      | none => simp [lastKcal, h1, h2]
      | some n => simp [lastKcal, h1, h2]
    | some n => simp [lastKcal, h1]

/-- The item list is left unchanged by the loop when no line is a
bullet line. -/
theorem foldl_fst_of_no_bullet (L : List (List Char))
    (h : ∀ l ∈ L, isBulletLine (stripChars l) = false) :
    ∀ acc : List Alimento × Nat, (L.foldl processLine acc).1 = acc.1 := by
  induction L with
  | nil => intro acc; rfl
  | cons l rest ih =>
    intro acc
    show (rest.foldl processLine (processLine acc l)).1 = acc.1
    rw [ih (fun x hx => h x (List.mem_cons_of_mem l hx)) (processLine acc l),
        processLine_fst_of_not_bullet acc l (h l (List.mem_cons_self l rest))]

/-- When no line has a kcal match, `lastKcal` is `none`. -/
theorem lastKcal_none (L : List (List Char))
    (h : ∀ l ∈ L, lineKcal (stripChars l) = none) :
    lastKcal L = none := by
  induction L with
  | nil => rfl
  | cons l rest ih =>
    unfold lastKcal
    rw [ih (fun x hx => h x (List.mem_cons_of_mem l hx)), h l (List.mem_cons_self l rest)]

/-- Every branch of `process_text` logs the classification call. -/
theorem process_text_calls_classify (text : String) (hasKey : Bool) (cNet : GroqHttp)
    (mNet wNet hNet : GroqJsonNet) :
    GroqCall.classifyCall ∈ (process_text text hasKey cNet mNet wNet hNet).2 := by
  unfold process_text
  by_cases h1 : classify_intent hasKey cNet = "meal" <;>
    by_cases h2 : classify_intent hasKey cNet = "workout" <;>
      by_cases h3 : classify_intent hasKey cNet = "hydration" <;>
        simp [h1, h2, h3]

/-- The closed-set coercion of groq_nlp.py line 152 always lands in the
valid intent set. -/
theorem coerce_mem (x : String) :
    validIntents.contains (if validIntents.contains x = true then x else "other") = true := by
  by_cases h : validIntents.contains x = true
  · rw [if_pos h]; exact h
  · rw [if_neg h]; decide

/-! ## Claim theorems -/

/-- C6: the regex extractor applied to the scenario text
`"- Arroz branco: ~150g (cozido)\n- Feijão carioca: ~100g (cozido)\nEstimativa: ~650 kcal"`
returns exactly the two items `(Arroz branco, 150, "~150g (cozido)")`
and `(Feijão carioca, 100, "~100g (cozido)")` in that order, with
`totalCalories = 650`. -/
theorem c6_regex_extractor_scenario :
    extract_structured_meal_data
        "- Arroz branco: ~150g (cozido)\n- Feijão carioca: ~100g (cozido)\nEstimativa: ~650 kcal" =
      { alimentos := [{ nome := "Arroz branco", quantidade_g := 150, descricao := "~150g (cozido)" },
                      { nome := "Feijão carioca", quantidade_g := 100, descricao := "~100g (cozido)" }]
        total_calorias_estimada := 650
        analise_completa :=
          "- Arroz branco: ~150g (cozido)\n- Feijão carioca: ~100g (cozido)\nEstimativa: ~650 kcal" } := by
  decide

/-- C3 counterexample: on the input `"100 kcal\n200 kcal"` the code
produces `totalCalories = 200` — the match found in the LAST matching
line, because the loop overwrites `total_calorias` on every matching
line — while the claim's first-occurrence rule demands 100. -/
theorem c3_counterexample :
    (extract_structured_meal_data "100 kcal\n200 kcal").total_calorias_estimada = 200 ∧
    spec_totalCalories_firstLine "100 kcal\n200 kcal" = 100 :=
  ⟨by decide, by decide⟩

/-- C3 amended: `totalCalories` equals the integer of the first
`(\d+)\s*kcal` occurrence within the LAST line containing such an
occurrence (case-insensitively); 0 if no line contains one. -/
theorem c3_total_calories_last_matching_line (s : String) :
    (extract_structured_meal_data s).total_calorias_estimada = spec_totalCalories_lastLine s := by
  unfold extract_structured_meal_data extractLines spec_totalCalories_lastLine linesOf
  exact foldl_snd _ _

/-- C4 counterexample: the input `"Estimativa: ~650 kcal"` contains
zero bullet lines, and the extractor does return an empty item
sequence, but `totalCalories = 650`, not 0 — the kcal scan is
independent of bullet lines, refuting the claim's `totalCalories = 0`
conjunct. -/
theorem c4_counterexample :
    (∀ l ∈ linesOf "Estimativa: ~650 kcal", isBulletLine (stripChars l) = false) ∧
    (extract_structured_meal_data "Estimativa: ~650 kcal").alimentos = [] ∧
    (extract_structured_meal_data "Estimativa: ~650 kcal").total_calorias_estimada = 650 :=
  ⟨by decide, by decide, by decide⟩

/-- C4 amended: for every input text containing zero bullet lines the
extractor returns an empty item sequence; `totalCalories` is determined
independently by the kcal scan and need not be 0. -/
theorem c4_no_bullet_empty_items (s : String)
    (h : ∀ l ∈ linesOf s, isBulletLine (stripChars l) = false) :
    (extract_structured_meal_data s).alimentos = [] := by
  unfold extract_structured_meal_data extractLines
  exact foldl_fst_of_no_bullet _ (by simpa [linesOf] using h) _

/-- C4 witness: a concrete bullet-free input on which the amended
theorem applies. -/
theorem c4_no_bullet_empty_items_witness :
    (∀ l ∈ linesOf "Peito de frango grelhado", isBulletLine (stripChars l) = false) ∧
    (extract_structured_meal_data "Peito de frango grelhado").alimentos = [] :=
  ⟨by decide, c4_no_bullet_empty_items "Peito de frango grelhado" (by decide)⟩

/-- C7: the embedded extractor is a total pure function — it returns a
record for every input (it cannot fail), echoes the input verbatim in
`analise_completa`, and absence of data degrades to zero values: no
bullet line gives an empty item list, no kcal match gives
`totalCalories = 0`. -/
theorem c7_regex_extractor_total (s : String) :
    (extract_structured_meal_data s).analise_completa = s ∧
    ((∀ l ∈ linesOf s, isBulletLine (stripChars l) = false) →
      (extract_structured_meal_data s).alimentos = []) ∧
    ((∀ l ∈ linesOf s, lineKcal (stripChars l) = none) →
      (extract_structured_meal_data s).total_calorias_estimada = 0) := by
  refine ⟨rfl, ?_, ?_⟩
  · intro h
    unfold extract_structured_meal_data extractLines
    exact foldl_fst_of_no_bullet _ (by simpa [linesOf] using h) _
  · intro h
    show (List.foldl processLine ([], 0) (splitOnChar '\n' s.toList)).2 = 0
    rw [foldl_snd, lastKcal_none _ (by simpa [linesOf] using h)]
    rfl

/-- C7 witness: a concrete data-free input where the degradation is
zero items and zero calories. -/
theorem c7_regex_extractor_total_witness :
    (∀ l ∈ linesOf "tomei sol de manha", isBulletLine (stripChars l) = false) ∧
    (∀ l ∈ linesOf "tomei sol de manha", lineKcal (stripChars l) = none) ∧
    (extract_structured_meal_data "tomei sol de manha").analise_completa = "tomei sol de manha" ∧
    (extract_structured_meal_data "tomei sol de manha").alimentos = [] ∧
    (extract_structured_meal_data "tomei sol de manha").total_calorias_estimada = 0 :=
  ⟨by decide, by decide,
   (c7_regex_extractor_total "tomei sol de manha").1,
   (c7_regex_extractor_total "tomei sol de manha").2.1 (by decide),
   (c7_regex_extractor_total "tomei sol de manha").2.2 (by decide)⟩

/-- C2 counterexample: with processors imported, `GROQ_API_KEY` set but
`GEMINI_API_KEY` unset, a message carrying both a photo and a voice
note is routed to the VOICE path — the photo does not take
unconditional priority, because the photo branch is gated on
`GEMINI_API_KEY`. -/
theorem c2_counterexample :
    process_message_route { text := "", voicePresent := true, photoPresent := true } true true false
        = Route.voicePath ∧
    process_message_route { text := "", voicePresent := true, photoPresent := true } true true false
        ≠ Route.photoPath :=
  ⟨by decide, by decide⟩

/-- C2 amended: when the processors are imported and both API keys are
configured, the dispatch follows exactly the claimed fixed priority
command > photo > voice > non-empty text > fallback; in general each
media branch is additionally gated on its required configuration and
falls through to the next branch when the gate fails. -/
theorem c2_route_priority_configured (m : MsgShape) :
    process_message_route m true true true = spec_route_priority m := by
  unfold process_message_route spec_route_priority
  simp

/-- C9 counterexample: the whitespace-only text `" "` is truthy for the
routing test, so it is dispatched to the text path, and `process_text`
always begins with a classification collaborator call — the pipeline
does not short-circuit before collaborator calls on whitespace-only
input (and no `EmptyInput` outcome exists in the code). -/
theorem c9_counterexample :
    process_message_route { text := " ", voicePresent := false, photoPresent := false } true true true
        = Route.textPath ∧
    GroqCall.classifyCall ∈
      (process_text " " true (.transportError "Connection refused")
          (.okJson .jnull) (.okJson .jnull) (.okJson .jnull)).2 :=
  ⟨by decide, by decide⟩

/-- C9 amended: only the truly empty text (with no photo and no voice)
short-circuits to the fallback "message received" reply, reaching no
handler and hence no collaborator; any non-empty, non-command text —
including whitespace-only text — is routed to the text path (given
imports and `GROQ_API_KEY`), where a classification call is always
made. -/
theorem c9_empty_vs_whitespace :
    (∀ importsOk gk ge : Bool,
      process_message_route { text := "", voicePresent := false, photoPresent := false }
        importsOk gk ge = Route.fallbackPath) ∧
    (∀ t : String, (t != "") = true → pyStartsWith ['/'] t = false →
      process_message_route { text := t, voicePresent := false, photoPresent := false }
        true true true = Route.textPath) ∧
    (∀ (t : String) (hasKey : Bool) (cNet : GroqHttp) (mNet wNet hNet : GroqJsonNet),
      GroqCall.classifyCall ∈ (process_text t hasKey cNet mNet wNet hNet).2) := by
  refine ⟨?_, ?_, process_text_calls_classify⟩
  · intro importsOk gk ge
    unfold process_message_route
    simp
  · intro t h1 h2
    unfold process_message_route
    simp [h1, h2]

/-- C9 witness: the amended theorem applied at the whitespace-only text
`" "`. -/
theorem c9_empty_vs_whitespace_witness :
    ((" " != "") = true) ∧ (pyStartsWith ['/'] " " = false) ∧
    process_message_route { text := " ", voicePresent := false, photoPresent := false }
        true true true = Route.textPath ∧
    GroqCall.classifyCall ∈
      (process_text " " false (.ok "meal") (.okJson .jnull) (.okJson .jnull) (.okJson .jnull)).2 :=
  ⟨by decide, by decide,
   c9_empty_vs_whitespace.2.1 " " (by decide) (by decide),
   c9_empty_vs_whitespace.2.2 " " false (.ok "meal") (.okJson .jnull) (.okJson .jnull)
     (.okJson .jnull)⟩

/-- C10: `classify_intent` strips and lowercases the collaborator's
reply before validating it against the closed intent set, so its return
value is always a member of that set, and any casing or whitespace
variant of a valid label is accepted as that label rather than coerced
to `"other"`. -/
theorem c10_classify_intent_normalizes :
    (∀ (hasKey : Bool) (net : GroqHttp),
      validIntents.contains (classify_intent hasKey net) = true) ∧
    (∀ s : String, validIntents.contains (pyLowerStr (pyStripStr s)) = true →
      classify_intent true (.ok s) = pyLowerStr (pyStripStr s)) := by
  constructor
  · intro hasKey net
    simp only [classify_intent]
    cases callGroqText hasKey net with
    | ok t => exact coerce_mem (pyLowerStr (pyStripStr t))
    | err e => exact coerce_mem (pyLowerStr (pyStripStr "other"))
  · intro s h
    show (if validIntents.contains (pyLowerStr (pyStripStr s)) = true
          then pyLowerStr (pyStripStr s) else "other") = pyLowerStr (pyStripStr s)
    rw [if_pos h]

/-- C10 witness: the reply `" MEAL "` is accepted as `"meal"`, and a
failed call still yields a member of the closed set. -/
theorem c10_classify_intent_normalizes_witness :
    (validIntents.contains (pyLowerStr (pyStripStr " MEAL ")) = true) ∧
    classify_intent true (.ok " MEAL ") = "meal" ∧
    validIntents.contains (classify_intent false (.httpError 500 "boom")) = true :=
  ⟨by decide,
   (c10_classify_intent_normalizes.2 " MEAL " (by decide)).trans (by decide),
   c10_classify_intent_normalizes.1 false (.httpError 500 "boom")⟩

/-- C1 counterexample: with the classification collaborator failing
(transport error), `process_text` returns a populated data payload and
a normal success-shaped reply containing no error string — not a
`success = false` result.  (In the code the failure shape is
`data = None` with an error reply; here `data` is populated.) -/
theorem c1_counterexample :
    (process_text "treino pesado" true (.transportError "Connection refused")
        (.okJson .jnull) (.okJson .jnull) (.okJson .jnull)).1.data.isSome = true ∧
    (process_text "treino pesado" true (.transportError "Connection refused")
        (.okJson .jnull) (.okJson .jnull) (.okJson .jnull)).1.response =
      "📝 Mensagem registrada!\n\n📝 Texto: \"treino pesado\"\n🎯 Intenção: other\n✅ Salvo na fila de sincronização!" ∧
    (process_text "treino pesado" true (.transportError "Connection refused")
        (.okJson .jnull) (.okJson .jnull) (.okJson .jnull)).2 = [GroqCall.classifyCall] :=
  ⟨rfl, rfl, rfl⟩

/-- C1 amended: when the classification collaborator call fails
(missing key, transport error, or non-200 status), the label silently
coerces to `"other"`, no structured-extraction call is attempted and no
domain record is produced — but the pipeline returns a normal
success-shaped result with a populated data payload and no error
string; `success = false` is never signalled. -/
theorem c1_classify_failure_silent (text : String) (hasKey : Bool) (net : GroqHttp)
    (mNet wNet hNet : GroqJsonNet)
    (h : ∃ e, callGroqText hasKey net = .err e) :
    (process_text text hasKey net mNet wNet hNet).1.data
        = some { ty := "text", text := text, intent := "other", extracted := none } ∧
    (process_text text hasKey net mNet wNet hNet).2 = [GroqCall.classifyCall] := by
  obtain ⟨e, he⟩ := h
  have hc : classify_intent hasKey net = "other" := by
    unfold classify_intent
    rw [he]
    rfl
  constructor <;> simp [process_text, hc]

/-- C1 witness: the amended theorem applied at a concrete transport
failure. -/
theorem c1_classify_failure_silent_witness :
    (∃ e, callGroqText true (.transportError "timeout") = .err e) ∧
    (process_text "oi" true (.transportError "timeout")
        (.okJson .jnull) (.okJson .jnull) (.okJson .jnull)).1.data
      = some { ty := "text", text := "oi", intent := "other", extracted := none } ∧
    (process_text "oi" true (.transportError "timeout")
        (.okJson .jnull) (.okJson .jnull) (.okJson .jnull)).2 = [GroqCall.classifyCall] :=
  ⟨⟨"timeout", rfl⟩,
   (c1_classify_failure_silent "oi" true (.transportError "timeout") _ _ _ ⟨"timeout", rfl⟩).1,
   (c1_classify_failure_silent "oi" true (.transportError "timeout") _ _ _ ⟨"timeout", rfl⟩).2⟩

/-- C5 counterexample: classification selects the meal schema, the
extraction collaborator returns a 200 response whose content does not
parse as JSON — and `process_text` still returns a populated,
success-shaped result whose `extracted` field is the literal
`{"success": false, "error": "JSON inválido", "raw": ...}` dict, i.e. a
substituted partial payload instead of a `success = false` pipeline
result. -/
theorem c5_counterexample :
    (process_text "almocei arroz" true (.ok "meal") (.okUnparseable "oops")
        (.okJson .jnull) (.okJson .jnull)).1.data.isSome = true ∧
    ((process_text "almocei arroz" true (.ok "meal") (.okUnparseable "oops")
        (.okJson .jnull) (.okJson .jnull)).1.data.map TextData.extracted)
      = some (some (.jobj [("success", .jbool false), ("error", .jstr "JSON inválido"),
                           ("raw", .jstr "oops")])) ∧
    (process_text "almocei arroz" true (.ok "meal") (.okUnparseable "oops")
        (.okJson .jnull) (.okJson .jnull)).2 = [GroqCall.classifyCall, GroqCall.mealCall] :=
  ⟨rfl, rfl, rfl⟩

/-- C5 amended: the pipeline performs no schema validation on the
extraction collaborator's result: whenever classification selects the
meal schema, whatever value `_call_groq` produces — a schema-conformant
object, an arbitrary mismatched JSON value, or the internal error
dict for unparseable content — is stored verbatim as the extracted
payload of a success-shaped result; `success = false` is never
signalled by the pipeline. -/
theorem c5_extraction_unvalidated (text : String) (hasKey : Bool) (cNet : GroqHttp)
    (mNet wNet hNet : GroqJsonNet)
    (h : classify_intent hasKey cNet = "meal") :
    (process_text text hasKey cNet mNet wNet hNet).1.data
        = some { ty := "text", text := text, intent := "meal",
                 extracted := some (callGroqJson hasKey mNet) } ∧
    (process_text text hasKey cNet mNet wNet hNet).2
        = [GroqCall.classifyCall, GroqCall.mealCall] := by
  constructor <;> simp [process_text, h]

/-- C5 witness: the amended theorem applied where the collaborator
returns the schema-mismatched object `{"foo": 1}`; it is stored
verbatim. -/
theorem c5_extraction_unvalidated_witness :
    classify_intent true (.ok "meal") = "meal" ∧
    (process_text "x" true (.ok "meal") (.okJson (.jobj [("foo", .jnum 1)]))
        (.okJson .jnull) (.okJson .jnull)).1.data
      = some { ty := "text", text := "x", intent := "meal",
               extracted := some (.jobj [("foo", .jnum 1)]) } :=
  ⟨rfl,
   (c5_extraction_unvalidated "x" true (.ok "meal") (.okJson (.jobj [("foo", .jnum 1)]))
      (.okJson .jnull) (.okJson .jnull) rfl).1⟩

set_option maxRecDepth 10000 in
/-- C8 counterexample: `process_voice` echoes a 150-character
transcription verbatim into the reply — no 100-character truncation and
no ellipsis marker — refuting "for every modality". -/
theorem c8_counterexample :
    (process_voice 5 (some "url") (.ok (String.mk (List.replicate 150 'a'))) true
        (.transportError "x") (.okJson .jnull) (.okJson .jnull) (.okJson .jnull)).1.response
      = "🎙️ **Áudio Transcrito!**\n\n" ++
        ("📝 Texto: \"" ++ String.mk (List.replicate 150 'a') ++ "\"\n\n") ++
        "🎯 Intenção: other\n✅ Salvo na fila de sincronização!" ∧
    (String.mk (List.replicate 150 'a')).toList.length = 150 :=
  ⟨rfl, by decide⟩

set_option maxRecDepth 4000 in
/-- C8 amended: only the text path truncates the echoed original text,
to 100 characters with an appended `"..."` exactly when the text is
longer; the voice path echoes the transcription into the reply
unmodified. -/
theorem c8_truncation_text_only :
    (∀ (text : String) (hasKey : Bool) (cNet : GroqHttp) (mNet wNet hNet : GroqJsonNet),
      ∃ pre post,
        (process_text text hasKey cNet mNet wNet hNet).1.response =
          pre ++ ("📝 Texto: \"" ++
            (String.mk (text.toList.take 100) ++
              (if 100 < text.toList.length then "..." else "")) ++ "\"\n") ++ post) ∧
    (∀ (d : Nat) (url t : String) (hasKey : Bool) (cNet : GroqHttp)
        (mNet wNet hNet : GroqJsonNet),
      ∃ pre post,
        (process_voice d (some url) (.ok t) hasKey cNet mNet wNet hNet).1.response =
          pre ++ ("📝 Texto: \"" ++ t ++ "\"\n\n") ++ post) := by
  constructor
  · intro text hasKey cNet mNet wNet hNet
    exact ⟨_, _, rfl⟩
  · intro d url t hasKey cNet mNet wNet hNet
    exact ⟨_, _, rfl⟩

end Biohack
